import Mathlib

/-!
Shallow embedding of `test-python/python/main.py` (the `pm test-python`
extension command) and proofs about its observable behaviour.

The program is a single-file CLI: it dispatches on `sys.argv[1]` to one of
three subcommands (`deploy`, `check`, `config`) or a static help text, reads
the environment variables `PM_CURRENT_PROJECT`, `PM_CONFIG_PATH`,
`PM_VERSION`, and prints human-readable, colour-coded lines to stdout.

Modelling conventions:
- The process environment is an association list `Env`; `os.environ.get`
  is `lookupEnv`.
- Interpreter-provided data (`sys.version`, `sys.platform`,
  `sys.executable`, `datetime.now().isoformat()`) are fields of `SysInfo`.
- Each `print` becomes one element of a `List Line`; `Line` keeps the five
  kinds of lines the source produces (info/success/warning/error via the
  colour helpers, plain via bare `print`) plus the interpreter traceback a
  propagating exception would produce. `render` maps a `Line` to the exact
  text and output channel.
- Python's `str.split()[0]` on `sys.version` raises `IndexError` when the
  string has no non-whitespace characters; a command's result is therefore
  `List Line × Option String` — the lines printed before any uncaught
  exception, and the exception if one was raised.  `main` turns an uncaught
  exception into a stderr traceback line and exit status 1, as the Python
  interpreter does.
- `json.loads` is embedded as `json_loads`, a fuel-based recursive-descent
  parser of the JSON grammar Python's decoder accepts (strict strings,
  `NaN`/`Infinity` constants, last duplicate object key wins).  Float
  values are kept as their token text: no claim depends on float
  formatting, which is outside the model.
-/

/-! ## Environment and interpreter context -/

def Env := List (String × String)

/-- `os.environ.get k` — first binding of `k`, if any. -/
def lookupEnv (env : Env) (k : String) : Option String :=
  (env.find? (fun p => p.1 == k)).map (fun p => p.2)

/-- Interpreter-provided context: `sys.version`, `sys.platform`,
`sys.executable`, and the `datetime.now().isoformat()` clock reading. -/
structure SysInfo where
  version : String
  platform : String
  executable : String
  timestamp : String

/-- Python truthiness of an optional string: `None` and `""` are falsy. -/
def optTruthy (o : Option String) : Bool :=
  match o with
  | none => false
  | some s => !s.isEmpty

/-- Whitespace for Python `str.split()` (ASCII part, as found in
`sys.version` strings). -/
def isPySpace (c : Char) : Bool :=
  c == ' ' || c == '\t' || c == '\n' || c == '\r' || c == '\x0b' || c == '\x0c'

/-- Worker for `pySplitWs`: `acc` holds the current word, reversed. -/
def pySplitAux : List Char → List Char → List String
  | [], acc => if acc.isEmpty then [] else [String.mk acc.reverse]
  | c :: cs, acc =>
    if isPySpace c then
      if acc.isEmpty then pySplitAux cs []
      else String.mk acc.reverse :: pySplitAux cs []
    else pySplitAux cs (c :: acc)

/-- Python `str.split()`: split on whitespace runs, dropping empty pieces. -/
def pySplitWs (s : String) : List String :=
  pySplitAux s.data []

/-- Python `str.split()[0]`: `none` models the `IndexError` raised when the
string contains no non-whitespace character. -/
def pyFirstWord (s : String) : Option String :=
  (pySplitWs s).head?

/-! ## Python values and `json.loads` -/

/-- The Python values `json.loads` can produce. Floats keep their source
token: the program never formats a float value in any behaviour a claim
exercises, so float formatting stays outside the model. -/
inductive PyValue where
  | pyNone
  | pyBool (b : Bool)
  | pyInt (n : Int)
  | pyFloat (raw : String)
  | pyStr (s : String)
  | pyList (xs : List PyValue)
  | pyDict (kvs : List (String × PyValue))
deriving Repr, Inhabited

def braceOpen : Char := Char.ofNat 123

def braceClose : Char := Char.ofNat 125

/-- JSON insignificant whitespace (as accepted by Python's decoder). -/
def isJsonWs (c : Char) : Bool :=
  c == ' ' || c == '\t' || c == '\n' || c == '\r'

def skipWs : List Char → List Char
  | [] => []
  | c :: cs => if isJsonWs c then skipWs cs else c :: cs

def hexVal (c : Char) : Option Nat :=
  if '0' ≤ c ∧ c ≤ '9' then some (c.toNat - '0'.toNat)
  else if 'a' ≤ c ∧ c ≤ 'f' then some (c.toNat - 'a'.toNat + 10)
  else if 'A' ≤ c ∧ c ≤ 'F' then some (c.toNat - 'A'.toNat + 10)
  else none

def hex4 (a b c d : Char) : Option Nat := do
  let x1 ← hexVal a
  let x2 ← hexVal b
  let x3 ← hexVal c
  let x4 ← hexVal d
  pure (((x1 * 16 + x2) * 16 + x3) * 16 + x4)

/-- Body of a JSON string after the opening quote (strict mode: raw control
characters are rejected).  A lone surrogate — which Python would keep in the
`str` — is approximated by `Char.ofNat`, since Lean strings hold only scalar
values; no claim exercises surrogate escapes. -/
def parseJString : Nat → List Char → Option (List Char × List Char)
  | 0, _ => none
  | _, [] => none
  | fuel + 1, c :: cs =>
    if c = '\"' then some ([], cs)
    else if c = '\\' then
      match cs with
      | [] => none
      | e :: cs1 =>
        let cont (ch : Char) (rest : List Char) : Option (List Char × List Char) :=
          (parseJString fuel rest).map (fun p => (ch :: p.1, p.2))
        if e = '\"' then cont '\"' cs1
        else if e = '\\' then cont '\\' cs1
        else if e = '/' then cont '/' cs1
        else if e = 'b' then cont '\x08' cs1
        else if e = 'f' then cont '\x0c' cs1
        else if e = 'n' then cont '\n' cs1
        else if e = 'r' then cont '\r' cs1
        else if e = 't' then cont '\t' cs1
        else if e = 'u' then
          match cs1 with
          | h1 :: h2 :: h3 :: h4 :: cs2 =>
            match hex4 h1 h2 h3 h4 with
            | none => none
            | some n =>
              if 0xD800 ≤ n ∧ n < 0xDC00 then
                match cs2 with
                | '\\' :: 'u' :: g1 :: g2 :: g3 :: g4 :: cs3 =>
                  match hex4 g1 g2 g3 g4 with
                  | some m =>
                    if 0xDC00 ≤ m ∧ m < 0xE000 then
                      cont (Char.ofNat (0x10000 + (n - 0xD800) * 0x400 + (m - 0xDC00))) cs3
                    else cont (Char.ofNat n) cs2
                  | none => cont (Char.ofNat n) cs2
                | _ => cont (Char.ofNat n) cs2
              else cont (Char.ofNat n) cs2
          | _ => none
        else none
    else if c.toNat < 0x20 then none
    else (parseJString fuel cs).map (fun p => (c :: p.1, p.2))

def digitsToNat (ds : List Char) : Nat :=
  ds.foldl (fun a c => a * 10 + (c.toNat - '0'.toNat)) 0

/-- JSON number token (RFC 8259 grammar, as Python's decoder matches it).
Integral tokens become `pyInt`; tokens with a fraction or exponent become
`pyFloat` carrying the token text. -/
def parseNumber (cs : List Char) : Option (PyValue × List Char) :=
  let (neg, cs1) := match cs with
    | '-' :: r => (true, r)
    | _ => (false, cs)
  match cs1 with
  | c :: _ =>
    if !c.isDigit then none
    else
      let (ip, cs2) :=
        if c = '0' then ([c], cs1.tail)
        else cs1.span Char.isDigit
      let (fp, cs3) :=
        match cs2 with
        | '.' :: r =>
          let (fd, r2) := r.span Char.isDigit
          if fd.isEmpty then ([], cs2) else ('.' :: fd, r2)
        | _ => ([], cs2)
      let fracOk : Bool := match cs2 with
        | '.' :: r => !(r.span Char.isDigit).1.isEmpty
        | _ => true
      if !fracOk then none
      else
        let (ep, cs4) :=
          match cs3 with
          | e :: r =>
            if e = 'e' ∨ e = 'E' then
              let (sg, r1) := match r with
                | s :: r2 => if s = '+' ∨ s = '-' then ([s], r2) else ([], r)
                | [] => ([], r)
              let (ed, r3) := r1.span Char.isDigit
              if ed.isEmpty then ([], cs3) else (e :: (sg ++ ed), r3)
            else ([], cs3)
          | [] => ([], cs3)
        let expOk : Bool := match cs3 with
          | e :: r =>
            if e = 'e' ∨ e = 'E' then
              let r1 := match r with
                | s :: r2 => if s = '+' ∨ s = '-' then r2 else r
                | [] => r
              !(r1.span Char.isDigit).1.isEmpty
            else true
          | [] => true
        if !expOk then none
        else if fp.isEmpty ∧ ep.isEmpty then
          let v : Int := Int.ofNat (digitsToNat ip)
          some (.pyInt (if neg then -v else v), cs2)
        else
          let raw := String.mk ((if neg then ['-'] else []) ++ ip ++ fp ++ ep)
          some (.pyFloat raw, cs4)
  | [] => none

mutual

/-- One JSON value, starting at a non-whitespace position. -/
def parseValue : Nat → List Char → Option (PyValue × List Char)
  | 0, _ => none
  | fuel + 1, cs =>
    match cs with
    | [] => none
    | c :: rest =>
      if c = braceOpen then
        let cs1 := skipWs rest
        match cs1 with
        | d :: cs2 =>
          if d = braceClose then some (.pyDict [], cs2)
          else (parseMembers fuel cs1).map (fun p => (.pyDict p.1, p.2))
        | [] => none
      else if c = '[' then
        let cs1 := skipWs rest
        match cs1 with
        | ']' :: cs2 => some (.pyList [], cs2)
        | _ => (parseElems fuel cs1).map (fun p => (.pyList p.1, p.2))
      else if c = '\"' then
        (parseJString (rest.length + 1) rest).map (fun p => (.pyStr (String.mk p.1), p.2))
      else
        match cs with
        | 't' :: 'r' :: 'u' :: 'e' :: r => some (.pyBool true, r)
        | 'f' :: 'a' :: 'l' :: 's' :: 'e' :: r => some (.pyBool false, r)
        | 'n' :: 'u' :: 'l' :: 'l' :: r => some (.pyNone, r)
        | 'N' :: 'a' :: 'N' :: r => some (.pyFloat "nan", r)
        | 'I' :: 'n' :: 'f' :: 'i' :: 'n' :: 'i' :: 't' :: 'y' :: r =>
          some (.pyFloat "inf", r)
        | '-' :: 'I' :: 'n' :: 'f' :: 'i' :: 'n' :: 'i' :: 't' :: 'y' :: r =>
          some (.pyFloat "-inf", r)
        | _ => parseNumber cs

/-- `"key" : value (, "key" : value)* closing-brace`, starting at the first
key's opening quote. -/
def parseMembers : Nat → List Char → Option (List (String × PyValue) × List Char)
  | 0, _ => none
  | fuel + 1, cs =>
    match cs with
    | [] => none
    | q :: rest =>
      if q ≠ '\"' then none
      else
        match parseJString (rest.length + 1) rest with
        | none => none
        | some (k, cs1) =>
          match skipWs cs1 with
          | ':' :: cs3 =>
            match parseValue fuel (skipWs cs3) with
            | none => none
            | some (v, cs4) =>
              match skipWs cs4 with
              | ',' :: cs5 =>
                (parseMembers fuel (skipWs cs5)).map
                  (fun p => ((String.mk k, v) :: p.1, p.2))
              | d :: cs5 =>
                if d = braceClose then some ([(String.mk k, v)], cs5) else none
              | [] => none
          | _ => none

/-- `value (, value)* ]`, starting at the first element. -/
def parseElems : Nat → List Char → Option (List PyValue × List Char)
  | 0, _ => none
  | fuel + 1, cs =>
    match parseValue fuel cs with
    | none => none
    | some (v, cs1) =>
      match skipWs cs1 with
      | ',' :: cs2 => (parseElems fuel (skipWs cs2)).map (fun p => (v :: p.1, p.2))
      | ']' :: cs2 => some ([v], cs2)
      | _ => none

end

/-- `json.loads`: parse one JSON document surrounded by optional whitespace;
`none` models the exception raised on any parse failure (including trailing
data).  The fuel `length + 1` suffices: every recursive descent consumes at
least one character first. -/
def json_loads (s : String) : Option PyValue :=
  let cs := skipWs s.data
  match parseValue (cs.length + 1) cs with
  | some (v, rest) => if (skipWs rest).isEmpty then some v else none
  | none => none

/-- `dict` lookup for the parsed JSON object; on duplicate keys the later
binding wins, as in a Python dict built by the JSON decoder. -/
def dictGet (kvs : List (String × PyValue)) (k : String) : Option PyValue :=
  kvs.foldl (fun acc p => if p.1 == k then some p.2 else acc) none

/-- `dict.get k default`. -/
def dictGetD (kvs : List (String × PyValue)) (k : String) (d : PyValue) : PyValue :=
  (dictGet kvs k).getD d

mutual

/-- Python `repr` of a JSON-decoded value, as far as the program can surface
it (string escaping corner cases and float formatting are not exercised by
any behaviour and are kept literal). -/
def pyRepr : PyValue → String
  | .pyNone => "None"
  | .pyBool true => "True"
  | .pyBool false => "False"
  | .pyInt n => toString n
  | .pyFloat raw => raw
  | .pyStr s => "\x27" ++ s ++ "\x27"
  | .pyList xs => "[" ++ pyReprSeq xs ++ "]"
  | .pyDict kvs => "\x7b" ++ pyReprKVs kvs ++ "\x7d"

def pyReprSeq : List PyValue → String
  | [] => ""
  | [v] => pyRepr v
  | v :: vs => pyRepr v ++ ", " ++ pyReprSeq vs

def pyReprKVs : List (String × PyValue) → String
  | [] => ""
  | [(k, v)] => "\x27" ++ k ++ "\x27: " ++ pyRepr v
  | (k, v) :: kvs => "\x27" ++ k ++ "\x27: " ++ pyRepr v ++ ", " ++ pyReprKVs kvs

end

/-- Python `str` as the f-strings use it: identity on `str`, `repr`-like on
containers and scalars. -/
def pyStr : PyValue → String
  | .pyStr s => s
  | v => pyRepr v

/-! ## Output lines -/

namespace Colors

def RED : String := "\x1b[0;31m"

def GREEN : String := "\x1b[0;32m"

def YELLOW : String := "\x1b[1;33m"

def BLUE : String := "\x1b[0;34m"

def NC : String := "\x1b[0m"

end Colors

/-- One printed line, before colour formatting: the four colour helpers of
the source, a bare `print`, and the traceback the interpreter writes for a
propagating exception. -/
inductive Line where
  | info (message : String)
  | success (message : String)
  | warning (message : String)
  | error (message : String)
  | plain (message : String)
  | traceback (message : String)
deriving Repr, DecidableEq

inductive Chan where
  | stdoutC
  | stderrC
deriving Repr, DecidableEq

/-- `print_info` -/
def print_info (message : String) : String :=
  Colors.BLUE ++ "ℹ️  " ++ message ++ Colors.NC

/-- `print_success` -/
def print_success (message : String) : String :=
  Colors.GREEN ++ "✅ " ++ message ++ Colors.NC

/-- `print_warning` -/
def print_warning (message : String) : String :=
  Colors.YELLOW ++ "⚠️  " ++ message ++ Colors.NC

/-- `print_error` -/
def print_error (message : String) : String :=
  Colors.RED ++ "❌ " ++ message ++ Colors.NC

/-- Channel and exact text of a line: every `print` of the source writes to
stdout; only an uncaught exception's traceback goes to stderr. -/
def render : Line → Chan × String
  | .info m => (.stdoutC, print_info m)
  | .success m => (.stdoutC, print_success m)
  | .warning m => (.stdoutC, print_warning m)
  | .error m => (.stdoutC, print_error m)
  | .plain m => (.stdoutC, m)
  | .traceback m => (.stderrC, m)

/-! ## The program -/

/-- `get_pm_context` -/
structure PMContext where
  current_project : Option String
  config_path : Option String
  pm_version : Option String

def get_pm_context (env : Env) : PMContext :=
  { current_project := lookupEnv env "PM_CURRENT_PROJECT"
  , config_path := lookupEnv env "PM_CONFIG_PATH"
  , pm_version := lookupEnv env "PM_VERSION" }

def indexError : String := "IndexError: list index out of range"

/-- `run_command` (the deploy behaviour).  The second component is the
uncaught exception, if any: `sys.version.split()[0]` raises `IndexError`
when `sys.version` has no non-whitespace character, after the preceding
lines were already printed. -/
def run_command (env : Env) (sys : SysInfo) : List Line × Option String :=
  let ctx := get_pm_context env
  ([Line.success "test-python Extension - Deploy Command",
    Line.info "Executing Python extension functionality..."]
   ++ (if optTruthy ctx.current_project then
        [Line.info ("Current PM project: " ++ ctx.current_project.getD "")]
      else [])
   ++ (if optTruthy ctx.config_path then
        [Line.info ("PM config: " ++ ctx.config_path.getD "")]
      else [])
   ++ [Line.plain "🐍 Python extension is running successfully!",
       Line.plain "📦 Working with Python packages and virtual environments",
       Line.plain "🚀 Rich ecosystem and powerful libraries available",
       Line.plain "⚡ High-level programming with great readability",
       Line.info "Checking Python environment..."]
   ++ (match pyFirstWord sys.version with
       | some w => [Line.info ("Python version: " ++ w),
                    Line.info ("Python executable: " ++ sys.executable)]
       | none => []),
   match pyFirstWord sys.version with
   | some _ => none
   | none => some indexError)

/-- `check_command`.  The `try` around `json.loads` and the two
`project_data.get` calls falls back to printing the raw string on any
exception — parse failure, or the `AttributeError` a non-dict result raises
at the first `.get`, before any line of the `try` body is printed.  The
final stdlib re-imports cannot fail, so the success line is unconditional. -/
def check_command (env : Env) (sys : SysInfo) : List Line × Option String :=
  let ctx := get_pm_context env
  ([Line.success "test-python Extension - Check Command",
    Line.info "Extension Type: Python",
    Line.info "Version: 1.0.0",
    Line.info "Status: Active and ready",
    Line.info ("Python: " ++ sys.version),
    Line.info ("Platform: " ++ sys.platform)]
   ++ (if optTruthy ctx.current_project then
        Line.success "Running in PM project context" ::
          (match json_loads (ctx.current_project.getD "") with
           | some (.pyDict kvs) =>
             [Line.info ("Project: " ++ pyStr (dictGetD kvs "name" (.pyStr "Unknown"))),
              Line.info ("Path: " ++ pyStr (dictGetD kvs "path" (.pyStr "Unknown")))]
           | _ => [Line.info ("Project: " ++ ctx.current_project.getD "")])
      else [Line.warning "Not running in PM project context"])
   ++ [Line.success "Core Python modules available"],
   none)

/-- The `config` dict of `config_command`: the full environment copy is
built into the snapshot but never printed. -/
structure ConfigSnapshot where
  extension : String
  version : String
  python_version : String
  timestamp : String
  environment : List (String × String)

/-- `config_command`.  The snapshot is built (including the dead
`environment` copy) before the `Current configuration:` block is printed;
the `IndexError` of `sys.version.split()[0]` would therefore interrupt the
output right after the first two lines. -/
def config_command (env : Env) (sys : SysInfo) : List Line × Option String :=
  let pre := [Line.success "test-python Extension - Config Command",
              Line.info "Python extension configuration"]
  match pyFirstWord sys.version with
  | none => (pre, some indexError)
  | some pv =>
    let config : ConfigSnapshot :=
      { extension := "test-python"
      , version := "1.0.0"
      , python_version := pv
      , timestamp := sys.timestamp
      , environment := env }
    let ctx := get_pm_context env
    (pre
     ++ [Line.info "Current configuration:",
         Line.plain ("  Extension: " ++ config.extension),
         Line.plain ("  Version: " ++ config.version),
         Line.plain ("  Python: " ++ config.python_version),
         Line.plain ("  Timestamp: " ++ config.timestamp)]
     ++ (if optTruthy ctx.current_project then
          [Line.plain ("  PM Project: " ++ ctx.current_project.getD "")]
        else [])
     ++ (if optTruthy ctx.config_path then
          [Line.plain ("  PM Config: " ++ ctx.config_path.getD "")]
        else []),
     none)

/-- `show_help` -/
def show_help : List Line :=
  [Line.plain "Usage: pm test-python [COMMAND]",
   Line.plain "",
   Line.plain "Available Commands:",
   Line.plain "  deploy     Deploy using Python extension",
   Line.plain "  check      Check Python extension health",
   Line.plain "  config     Configure Python extension",
   Line.plain "",
   Line.plain "PM Environment Variables:",
   Line.plain "  PM_CURRENT_PROJECT - Current project context",
   Line.plain "  PM_CONFIG_PATH     - PM configuration path",
   Line.plain "  PM_VERSION         - PM version",
   Line.plain "",
   Line.plain "Extension: test-python",
   Line.plain "Description: Test Python extension for local installation testing",
   Line.plain "Author: testuser",
   Line.plain "Homepage: https://github.com/testuser/test-python"]

/-- An uncaught exception becomes a stderr traceback and exit status 1, as
the interpreter handles it; otherwise the process exits with status 0. -/
def finishRun : List Line × Option String → List Line × Nat
  | (ls, none) => (ls, 0)
  | (ls, some e) => (ls ++ [Line.traceback ("Traceback (most recent call last): " ++ e)], 1)

namespace Prog

/-- `main`: `argv` is the full `sys.argv`, program name included.  Returns
the printed lines and the process exit status. -/
def main (argv : List String) (env : Env) (sys : SysInfo) : List Line × Nat :=
  if argv.length < 2 then (show_help, 0)
  else
    let command := (argv.get? 1).getD ""
    if command = "deploy" then finishRun (run_command env sys)
    else if command = "check" then finishRun (check_command env sys)
    else if command = "config" then finishRun (config_command env sys)
    else (show_help, 0)

end Prog

/-! ## Helper lemmas -/

/-- A concrete interpreter context used by the witness theorems. -/
def sampleSys : SysInfo :=
  { version := "3.11.4 (main)"
  , platform := "linux"
  , executable := "/usr/bin/python3"
  , timestamp := "2026-01-01T00:00:00" }

lemma str_append_left_cancel {a x y : String} (h : a ++ x = a ++ y) : x = y := by
  have hd := congrArg String.data h
  simp only [String.data_append] at hd
  exact String.ext (List.append_cancel_left hd)

lemma str_ne_of_get (n : Nat) (c d : Char) {a b : String}
    (h1 : a.data[n]? = some c) (h2 : b.data[n]? = some d) (h3 : c ≠ d) :
    a ≠ b := by
  intro he
  subst he
  rw [h1] at h2
  exact h3 (Option.some.inj h2)

lemma get_append_left {a : String} (b : String) {n : Nat} {c : Char}
    (h : a.data[n]? = some c) : (a ++ b).data[n]? = some c := by
  have hlt : n < a.data.length := (List.getElem?_eq_some_iff.mp h).1
  rw [String.data_append, List.getElem?_append_left hlt]
  exact h

/-- Two appended strings differ when their left parts differ at character
index `n`. -/
lemma append_ne_append (n : Nat) (c d : Char) (a b x y : String)
    (h1 : a.data[n]? = some c) (h2 : b.data[n]? = some d) (h3 : c ≠ d) :
    a ++ x ≠ b ++ y :=
  str_ne_of_get n c d (get_append_left x h1) (get_append_left y h2) h3

lemma append_ne_lit (n : Nat) (c d : Char) (a x b : String)
    (h1 : a.data[n]? = some c) (h2 : b.data[n]? = some d) (h3 : c ≠ d) :
    a ++ x ≠ b :=
  str_ne_of_get n c d (get_append_left x h1) h2 h3

/-- `main` seen through `argv[1]`: the source checks `len(sys.argv) < 2`
and then reads `sys.argv[1]`, which is exactly a dispatch on the optional
second element. -/
lemma main_eq_dispatch (argv : List String) (env : Env) (sys : SysInfo) :
    Prog.main argv env sys =
      match argv.get? 1 with
      | none => (show_help, 0)
      | some c =>
        if c = "deploy" then finishRun (run_command env sys)
        else if c = "check" then finishRun (check_command env sys)
        else if c = "config" then finishRun (config_command env sys)
        else (show_help, 0) := by
  match argv with
  | [] => rfl
  | [a] => rfl
  | a :: b :: t =>
    show Prog.main (a :: b :: t) env sys = _
    simp only [Prog.main, List.get?]
    rw [if_neg (by simp [Nat.succ_lt_succ_iff])]
    rfl

/-! ## Claims -/

/-- **C1**: dispatch is a flat case-sensitive exact match on `argv[1]`:
with no argument, or any first argument other than the literals `deploy`,
`check`, `config` (including `""` and flag-like strings), the entire output
is the static help text with exit 0; otherwise exactly the corresponding
behaviour runs. -/
theorem c1_dispatch_flat_exact (argv : List String) (env : Env) (sys : SysInfo) :
    (argv.get? 1 = none → Prog.main argv env sys = (show_help, 0))
    ∧ (∀ c, argv.get? 1 = some c → c ≠ "deploy" → c ≠ "check" → c ≠ "config" →
        Prog.main argv env sys = (show_help, 0))
    ∧ (argv.get? 1 = some "deploy" →
        Prog.main argv env sys = finishRun (run_command env sys))
    ∧ (argv.get? 1 = some "check" →
        Prog.main argv env sys = finishRun (check_command env sys))
    ∧ (argv.get? 1 = some "config" →
        Prog.main argv env sys = finishRun (config_command env sys)) := by
  refine ⟨?_, ?_, ?_, ?_, ?_⟩
  · intro hc
    rw [main_eq_dispatch, hc]
  · intro c hc h1 h2 h3
    rw [main_eq_dispatch, hc]
    simp [h1, h2, h3]
  · intro hc
    rw [main_eq_dispatch, hc]
    simp
  · intro hc
    rw [main_eq_dispatch, hc]
    simp
  · intro hc
    rw [main_eq_dispatch, hc]
    simp

theorem c1_witness :
    Prog.main ["pm", "--help"] ([] : Env) sampleSys = (show_help, 0) :=
  (c1_dispatch_flat_exact ["pm", "--help"] [] sampleSys).2.1 "--help" rfl
    (by decide) (by decide) (by decide)

/-- **C10**: only the first command-line argument affects behaviour — two
argument lists agreeing on `argv[1]` (or both lacking one) give identical
output and exit status under the same environment. -/
theorem c10_only_first_arg (argv1 argv2 : List String) (env : Env) (sys : SysInfo)
    (h : argv1.get? 1 = argv2.get? 1) :
    Prog.main argv1 env sys = Prog.main argv2 env sys := by
  rw [main_eq_dispatch, main_eq_dispatch, h]

theorem c10_witness :
    Prog.main ["pm", "check", "extra", "args"] ([] : Env) sampleSys =
      Prog.main ["pm", "check"] ([] : Env) sampleSys :=
  c10_only_first_arg _ _ _ _ rfl

/-- **C4**: for every argument list and environment the program terminates
with exit status 0; the hypothesis pins the only interpreter-level escape
hatch of the model, that `sys.version` has a first word (true of every real
interpreter), so no exception escapes `main`. -/
theorem c4_exit_zero (argv : List String) (env : Env) (sys : SysInfo) (w : String)
    (h : pyFirstWord sys.version = some w) :
    (Prog.main argv env sys).2 = 0 := by
  rw [main_eq_dispatch]
  cases hc : argv.get? 1 with
  | none => rfl
  | some c =>
    by_cases h1 : c = "deploy"
    · simp [h1, finishRun, run_command, h]
    · by_cases h2 : c = "check"
      · simp [h1, h2, finishRun, check_command]
      · by_cases h3 : c = "config"
        · simp [h1, h2, h3, finishRun, config_command, h]
        · simp [h1, h2, h3]

theorem c4_witness :
    (Prog.main ["pm", "deploy"] ([] : Env) sampleSys).2 = 0 :=
  c4_exit_zero ["pm", "deploy"] [] sampleSys "3.11.4" (by rfl)

lemma finishRun_of_none {x : List Line × Option String} (h : x.2 = none) :
    finishRun x = (x.1, 0) := by
  obtain ⟨a, b⟩ := x
  simp only at h
  subst h
  rfl

lemma run_command_snd (env : Env) (sys : SysInfo) (w : String)
    (h : pyFirstWord sys.version = some w) : (run_command env sys).2 = none := by
  simp [run_command, h]

lemma check_command_snd (env : Env) (sys : SysInfo) : (check_command env sys).2 = none := rfl

lemma config_command_snd (env : Env) (sys : SysInfo) (w : String)
    (h : pyFirstWord sys.version = some w) : (config_command env sys).2 = none := by
  simp [config_command, h]

/-- **C6**: noninterference over environment variables — two runs agreeing
on `PM_CURRENT_PROJECT` and `PM_CONFIG_PATH` (same argv and interpreter
context, i.e. same clock, version, platform, executable) produce identical
output and exit status, whatever `PM_VERSION` or any other variable holds:
`PM_VERSION` and the config snapshot's environment copy are never
rendered. -/
theorem c6_env_noninterference (argv : List String) (env1 env2 : Env) (sys : SysInfo)
    (hP : lookupEnv env1 "PM_CURRENT_PROJECT" = lookupEnv env2 "PM_CURRENT_PROJECT")
    (hC : lookupEnv env1 "PM_CONFIG_PATH" = lookupEnv env2 "PM_CONFIG_PATH") :
    Prog.main argv env1 sys = Prog.main argv env2 sys := by
  have hrun : run_command env1 sys = run_command env2 sys := by
    simp [run_command, get_pm_context, hP, hC]
  have hcheck : check_command env1 sys = check_command env2 sys := by
    simp [check_command, get_pm_context, hP]
  have hconfig : config_command env1 sys = config_command env2 sys := by
    cases hfw : pyFirstWord sys.version <;>
      simp [config_command, get_pm_context, hP, hC, hfw]
  rw [main_eq_dispatch, main_eq_dispatch]
  cases argv.get? 1 with
  | none => rfl
  | some c => rw [hrun, hcheck, hconfig]

theorem c6_witness :
    Prog.main ["pm", "config"] [("PM_VERSION", "9.9"), ("HOME", "/root")] sampleSys =
      Prog.main ["pm", "config"] ([] : Env) sampleSys :=
  c6_env_noninterference ["pm", "config"] [("PM_VERSION", "9.9"), ("HOME", "/root")] [] sampleSys
    (by rfl) (by rfl)

lemma run_all_stdout (env : Env) (sys : SysInfo) :
    ((run_command env sys).1.all (fun l => (render l).1 == Chan.stdoutC)) = true := by
  by_cases h1 : optTruthy (lookupEnv env "PM_CURRENT_PROJECT") <;>
  by_cases h2 : optTruthy (lookupEnv env "PM_CONFIG_PATH") <;>
  cases h3 : pyFirstWord sys.version <;>
  simp [run_command, get_pm_context, h1, h2, h3, render]

lemma check_all_stdout (env : Env) (sys : SysInfo) :
    ((check_command env sys).1.all (fun l => (render l).1 == Chan.stdoutC)) = true := by
  by_cases h1 : optTruthy (lookupEnv env "PM_CURRENT_PROJECT")
  · cases hj : json_loads ((lookupEnv env "PM_CURRENT_PROJECT").getD "") with
    | none => simp [check_command, get_pm_context, h1, hj, render]
    | some v => cases v <;> simp [check_command, get_pm_context, h1, hj, render]
  · simp [check_command, get_pm_context, h1, render]

lemma config_all_stdout (env : Env) (sys : SysInfo) (w : String)
    (h : pyFirstWord sys.version = some w) :
    ((config_command env sys).1.all (fun l => (render l).1 == Chan.stdoutC)) = true := by
  by_cases h1 : optTruthy (lookupEnv env "PM_CURRENT_PROJECT") <;>
  by_cases h2 : optTruthy (lookupEnv env "PM_CONFIG_PATH") <;>
  simp [config_command, get_pm_context, h1, h2, h, render]

/-- **C7**: every line the program emits — including the colour-coded
warning and error lines — goes to standard output; nothing is written to
standard error (files are outside the program: it performs no file I/O).
The hypothesis pins `sys.version` to have a first word, which rules out the
only uncaught-exception path of the model. -/
theorem c7_stdout_only (argv : List String) (env : Env) (sys : SysInfo) (w : String)
    (h : pyFirstWord sys.version = some w) :
    ∀ l ∈ (Prog.main argv env sys).1, (render l).1 = Chan.stdoutC := by
  have hb : ∀ ls : List Line, ls.all (fun x => (render x).1 == Chan.stdoutC) = true →
      ∀ x ∈ ls, (render x).1 = Chan.stdoutC := by
    intro ls hall x hx
    exact beq_iff_eq.mp (List.all_eq_true.mp hall x hx)
  rw [main_eq_dispatch]
  cases hc : argv.get? 1 with
  | none => exact hb show_help (by decide)
  | some c =>
    by_cases h1 : c = "deploy"
    · simp only [h1, if_pos rfl]
      rw [finishRun_of_none (run_command_snd env sys w h)]
      exact hb _ (run_all_stdout env sys)
    · by_cases h2 : c = "check"
      · simp only [h1, h2, if_neg, if_pos rfl]
        rw [finishRun_of_none (check_command_snd env sys)]
        exact hb _ (check_all_stdout env sys)
      · by_cases h3 : c = "config"
        · simp only [h1, h2, h3, if_neg, if_pos rfl]
          rw [finishRun_of_none (config_command_snd env sys w h)]
          exact hb _ (config_all_stdout env sys w h)
        · simp only [h1, h2, h3, if_neg]
          exact hb show_help (by decide)

theorem c7_witness :
    (render (Line.success "test-python Extension - Check Command")).1 = Chan.stdoutC :=
  c7_stdout_only ["pm", "check"] [] sampleSys "3.11.4" (by rfl)
    (Line.success "test-python Extension - Check Command") (by decide)

/-- The check behaviour's output when `PM_CURRENT_PROJECT` holds a truthy
(non-empty) string `cp`, with the JSON branch left symbolic. -/
lemma check_truthy_lines (env : Env) (sys : SysInfo) (cp : String)
    (h1 : lookupEnv env "PM_CURRENT_PROJECT" = some cp) (h2 : cp ≠ "") :
    (check_command env sys).1 =
      [Line.success "test-python Extension - Check Command",
       Line.info "Extension Type: Python",
       Line.info "Version: 1.0.0",
       Line.info "Status: Active and ready",
       Line.info ("Python: " ++ sys.version),
       Line.info ("Platform: " ++ sys.platform)]
      ++ (Line.success "Running in PM project context" ::
          (match json_loads cp with
           | some (.pyDict kvs) =>
             [Line.info ("Project: " ++ pyStr (dictGetD kvs "name" (.pyStr "Unknown"))),
              Line.info ("Path: " ++ pyStr (dictGetD kvs "path" (.pyStr "Unknown")))]
           | _ => [Line.info ("Project: " ++ cp)]))
      ++ [Line.success "Core Python modules available"] := by
  have he : cp.isEmpty = false := by
    cases hh : cp.isEmpty
    · rfl
    · exact absurd ((String.isEmpty_iff cp).mp hh) h2
  simp [check_command, get_pm_context, h1, optTruthy, he]

lemma json_loads_ne_empty {cp : String} {v : PyValue} (h : json_loads cp = some v) :
    cp ≠ "" := by
  intro hcp
  subst hcp
  have h0 : json_loads "" = none := rfl
  rw [h0] at h
  exact Option.noConfusion h

/-- **C2**: in the check behaviour, whenever the JSON parse of the (truthy)
`PM_CURRENT_PROJECT` value fails, the raw unparsed string is printed as the
`Project:` line, no error line of any kind is produced, and no exception
escapes. -/
theorem c2_parse_failure_prints_raw (env : Env) (sys : SysInfo) (cp : String)
    (h1 : lookupEnv env "PM_CURRENT_PROJECT" = some cp) (h2 : cp ≠ "")
    (h3 : json_loads cp = none) :
    Line.info ("Project: " ++ cp) ∈ (check_command env sys).1
    ∧ (∀ m, Line.error m ∉ (check_command env sys).1)
    ∧ (check_command env sys).2 = none := by
  have heq := check_truthy_lines env sys cp h1 h2
  simp only [h3] at heq
  refine ⟨?_, ?_, check_command_snd env sys⟩
  · rw [heq]
    simp
  · intro m
    rw [heq]
    simp

theorem c2_witness :
    Line.info ("Project: " ++ "hello") ∈
      (check_command [("PM_CURRENT_PROJECT", "hello")] sampleSys).1 :=
  (c2_parse_failure_prints_raw [("PM_CURRENT_PROJECT", "hello")] sampleSys "hello"
    (by rfl) (by decide) (by rfl)).1

/-- **C3 (counterexample)**: `"42"` parses successfully as JSON, yet the
check behaviour prints neither a `name` nor a `path` field and no `Unknown`
default — it prints the raw string `Project: 42` — so the claim's
quantification over every successfully parsed value fails. -/
theorem c3_counterexample :
    json_loads "42" = some (PyValue.pyInt 42)
    ∧ Line.info "Project: Unknown" ∉
        (check_command [("PM_CURRENT_PROJECT", "42")] sampleSys).1
    ∧ Line.info "Path: Unknown" ∉
        (check_command [("PM_CURRENT_PROJECT", "42")] sampleSys).1
    ∧ Line.info "Project: 42" ∈
        (check_command [("PM_CURRENT_PROJECT", "42")] sampleSys).1 := by
  refine ⟨by rfl, ?_, ?_, ?_⟩ <;> decide

/-- **C3 (amended)**: for every value of `PM_CURRENT_PROJECT` whose JSON
parse succeeds *with a JSON object*, the `name` and `path` fields of the
parsed object are printed, each defaulting to the literal string `Unknown`
when absent. -/
theorem c3_object_fields_printed (env : Env) (sys : SysInfo) (cp : String)
    (kvs : List (String × PyValue))
    (h1 : lookupEnv env "PM_CURRENT_PROJECT" = some cp)
    (h2 : json_loads cp = some (PyValue.pyDict kvs)) :
    (check_command env sys).1 =
      [Line.success "test-python Extension - Check Command",
       Line.info "Extension Type: Python",
       Line.info "Version: 1.0.0",
       Line.info "Status: Active and ready",
       Line.info ("Python: " ++ sys.version),
       Line.info ("Platform: " ++ sys.platform),
       Line.success "Running in PM project context",
       Line.info ("Project: " ++ pyStr (dictGetD kvs "name" (.pyStr "Unknown"))),
       Line.info ("Path: " ++ pyStr (dictGetD kvs "path" (.pyStr "Unknown"))),
       Line.success "Core Python modules available"] := by
  have heq := check_truthy_lines env sys cp h1 (json_loads_ne_empty h2)
  simp only [h2] at heq
  simpa using heq

def jFooPath : String := "\x7b\"name\":\"Foo\",\"path\":\"/x\"\x7d"

theorem c3_witness :
    (check_command [("PM_CURRENT_PROJECT", jFooPath)] sampleSys).1 =
      [Line.success "test-python Extension - Check Command",
       Line.info "Extension Type: Python",
       Line.info "Version: 1.0.0",
       Line.info "Status: Active and ready",
       Line.info ("Python: " ++ sampleSys.version),
       Line.info ("Platform: " ++ sampleSys.platform),
       Line.success "Running in PM project context",
       Line.info "Project: Foo",
       Line.info "Path: /x",
       Line.success "Core Python modules available"] := by
  rw [c3_object_fields_printed [("PM_CURRENT_PROJECT", jFooPath)] sampleSys jFooPath
    [("name", PyValue.pyStr "Foo"), ("path", PyValue.pyStr "/x")] (by rfl) (by rfl)]
  decide

/-- **C8**: when `PM_CURRENT_PROJECT` parses as valid JSON that is not an
object, the bare `except` catches the `AttributeError` of `.get` and the
raw string is printed as the `Project:` line: no `Path:` line exists, and
the only `Project:` line is the raw one — no partial output from the parsed
value. -/
theorem c8_nondict_prints_raw (env : Env) (sys : SysInfo) (cp : String) (v : PyValue)
    (h1 : lookupEnv env "PM_CURRENT_PROJECT" = some cp)
    (h2 : json_loads cp = some v)
    (h3 : ∀ kvs, v ≠ PyValue.pyDict kvs) :
    Line.info ("Project: " ++ cp) ∈ (check_command env sys).1
    ∧ (∀ s, Line.info ("Path: " ++ s) ∉ (check_command env sys).1)
    ∧ (∀ s, Line.info ("Project: " ++ s) ∈ (check_command env sys).1 → s = cp) := by
  have heq := check_truthy_lines env sys cp h1 (json_loads_ne_empty h2)
  have hmatch :
      (match json_loads cp with
       | some (.pyDict kvs) =>
         [Line.info ("Project: " ++ pyStr (dictGetD kvs "name" (.pyStr "Unknown"))),
          Line.info ("Path: " ++ pyStr (dictGetD kvs "path" (.pyStr "Unknown")))]
       | _ => [Line.info ("Project: " ++ cp)]) = [Line.info ("Project: " ++ cp)] := by
    rw [h2]
    cases v with
    | pyDict kvs => exact absurd rfl (h3 kvs)
    | pyNone => rfl
    | pyBool b => rfl
    | pyInt n => rfl
    | pyFloat raw => rfl
    | pyStr s => rfl
    | pyList xs => rfl
  rw [hmatch] at heq
  refine ⟨by rw [heq]; simp, ?_, ?_⟩
  · intro s
    have n1 : "Path: " ++ s ≠ "Extension Type: Python" :=
      append_ne_lit 0 'P' 'E' "Path: " s "Extension Type: Python"
        (by decide) (by decide) (by decide)
    have n2 : "Path: " ++ s ≠ "Version: 1.0.0" :=
      append_ne_lit 0 'P' 'V' "Path: " s "Version: 1.0.0"
        (by decide) (by decide) (by decide)
    have n3 : "Path: " ++ s ≠ "Status: Active and ready" :=
      append_ne_lit 0 'P' 'S' "Path: " s "Status: Active and ready"
        (by decide) (by decide) (by decide)
    have n4 : "Path: " ++ s ≠ "Python: " ++ sys.version :=
      append_ne_append 1 'a' 'y' "Path: " "Python: " s sys.version
        (by decide) (by decide) (by decide)
    have n5 : "Path: " ++ s ≠ "Platform: " ++ sys.platform :=
      append_ne_append 1 'a' 'l' "Path: " "Platform: " s sys.platform
        (by decide) (by decide) (by decide)
    have n6 : "Path: " ++ s ≠ "Project: " ++ cp :=
      append_ne_append 1 'a' 'r' "Path: " "Project: " s cp
        (by decide) (by decide) (by decide)
    rw [heq]
    simp [n1, n2, n3, n4, n5, n6]
  · intro s
    have n1 : "Project: " ++ s ≠ "Extension Type: Python" :=
      append_ne_lit 0 'P' 'E' "Project: " s "Extension Type: Python"
        (by decide) (by decide) (by decide)
    have n2 : "Project: " ++ s ≠ "Version: 1.0.0" :=
      append_ne_lit 0 'P' 'V' "Project: " s "Version: 1.0.0"
        (by decide) (by decide) (by decide)
    have n3 : "Project: " ++ s ≠ "Status: Active and ready" :=
      append_ne_lit 0 'P' 'S' "Project: " s "Status: Active and ready"
        (by decide) (by decide) (by decide)
    have n4 : "Project: " ++ s ≠ "Python: " ++ sys.version :=
      append_ne_append 1 'r' 'y' "Project: " "Python: " s sys.version
        (by decide) (by decide) (by decide)
    have n5 : "Project: " ++ s ≠ "Platform: " ++ sys.platform :=
      append_ne_append 1 'r' 'l' "Project: " "Platform: " s sys.platform
        (by decide) (by decide) (by decide)
    intro hmem
    rw [heq] at hmem
    simp [n1, n2, n3, n4, n5] at hmem
    exact str_append_left_cancel hmem

theorem c8_witness :
    Line.info ("Project: " ++ "[1,2]") ∈
      (check_command [("PM_CURRENT_PROJECT", "[1,2]")] sampleSys).1 :=
  (c8_nondict_prints_raw [("PM_CURRENT_PROJECT", "[1,2]")] sampleSys "[1,2]"
    (PyValue.pyList [PyValue.pyInt 1, PyValue.pyInt 2]) (by rfl) (by rfl)
    (fun kvs h => PyValue.noConfusion h)).1

/-- When `PM_CURRENT_PROJECT` is falsy, no `Current PM project:` line
appears in the deploy output, for any payload. -/
lemma run_omits_project (env : Env) (sys : SysInfo)
    (h : optTruthy (lookupEnv env "PM_CURRENT_PROJECT") = false) :
    ∀ s, Line.info ("Current PM project: " ++ s) ∉ (run_command env sys).1 := by
  intro s
  have n1 : "Current PM project: " ++ s ≠ "Executing Python extension functionality..." :=
    append_ne_lit 0 'C' 'E' "Current PM project: " s
      "Executing Python extension functionality..." (by decide) (by decide) (by decide)
  have n2 : ∀ p, "Current PM project: " ++ s ≠ "PM config: " ++ p := fun p =>
    append_ne_append 0 'C' 'P' "Current PM project: " "PM config: " s p
      (by decide) (by decide) (by decide)
  have n3 : "Current PM project: " ++ s ≠ "Checking Python environment..." :=
    append_ne_lit 1 'u' 'h' "Current PM project: " s "Checking Python environment..."
      (by decide) (by decide) (by decide)
  have n4 : ∀ t, "Current PM project: " ++ s ≠ "Python version: " ++ t := fun t =>
    append_ne_append 0 'C' 'P' "Current PM project: " "Python version: " s t
      (by decide) (by decide) (by decide)
  have n5 : ∀ t, "Current PM project: " ++ s ≠ "Python executable: " ++ t := fun t =>
    append_ne_append 0 'C' 'P' "Current PM project: " "Python executable: " s t
      (by decide) (by decide) (by decide)
  by_cases h2 : optTruthy (lookupEnv env "PM_CONFIG_PATH") <;>
  cases h3 : pyFirstWord sys.version <;>
  simp [run_command, get_pm_context, h, h2, h3, n1, n2, n3, n4, n5]

/-- When `PM_CURRENT_PROJECT` is falsy, no `  PM Project:` line appears in
the config output, for any payload. -/
lemma config_omits_project (env : Env) (sys : SysInfo)
    (h : optTruthy (lookupEnv env "PM_CURRENT_PROJECT") = false) :
    ∀ s, Line.plain ("  PM Project: " ++ s) ∉ (config_command env sys).1 := by
  intro s
  have n1 : "  PM Project: " ++ s ≠ "  Extension: test-python" :=
    append_ne_lit 2 'P' 'E' "  PM Project: " s "  Extension: test-python"
      (by decide) (by decide) (by decide)
  have n1a : ∀ t, "  PM Project: " ++ s ≠ "  Extension: " ++ t := fun t =>
    append_ne_append 2 'P' 'E' "  PM Project: " "  Extension: " s t
      (by decide) (by decide) (by decide)
  have n2 : "  PM Project: " ++ s ≠ "  Version: 1.0.0" :=
    append_ne_lit 2 'P' 'V' "  PM Project: " s "  Version: 1.0.0"
      (by decide) (by decide) (by decide)
  have n2a : ∀ t, "  PM Project: " ++ s ≠ "  Version: " ++ t := fun t =>
    append_ne_append 2 'P' 'V' "  PM Project: " "  Version: " s t
      (by decide) (by decide) (by decide)
  have n3 : ∀ t, "  PM Project: " ++ s ≠ "  Python: " ++ t := fun t =>
    append_ne_append 3 'M' 'y' "  PM Project: " "  Python: " s t
      (by decide) (by decide) (by decide)
  have n4 : ∀ t, "  PM Project: " ++ s ≠ "  Timestamp: " ++ t := fun t =>
    append_ne_append 2 'P' 'T' "  PM Project: " "  Timestamp: " s t
      (by decide) (by decide) (by decide)
  have n5 : ∀ t, "  PM Project: " ++ s ≠ "  PM Config: " ++ t := fun t =>
    append_ne_append 5 'P' 'C' "  PM Project: " "  PM Config: " s t
      (by decide) (by decide) (by decide)
  by_cases h2 : optTruthy (lookupEnv env "PM_CONFIG_PATH") <;>
  cases h3 : pyFirstWord sys.version <;>
  simp [config_command, get_pm_context, h, h2, h3, n1, n1a, n2, n2a, n3, n4, n5]

/-- When `PM_CONFIG_PATH` is falsy, no `PM config:` line appears in the
deploy output, for any payload. -/
lemma run_omits_config (env : Env) (sys : SysInfo)
    (h : optTruthy (lookupEnv env "PM_CONFIG_PATH") = false) :
    ∀ s, Line.info ("PM config: " ++ s) ∉ (run_command env sys).1 := by
  intro s
  have n1 : "PM config: " ++ s ≠ "Executing Python extension functionality..." :=
    append_ne_lit 0 'P' 'E' "PM config: " s "Executing Python extension functionality..."
      (by decide) (by decide) (by decide)
  have n2 : ∀ p, "PM config: " ++ s ≠ "Current PM project: " ++ p := fun p =>
    append_ne_append 0 'P' 'C' "PM config: " "Current PM project: " s p
      (by decide) (by decide) (by decide)
  have n3 : "PM config: " ++ s ≠ "Checking Python environment..." :=
    append_ne_lit 0 'P' 'C' "PM config: " s "Checking Python environment..."
      (by decide) (by decide) (by decide)
  have n4 : ∀ t, "PM config: " ++ s ≠ "Python version: " ++ t := fun t =>
    append_ne_append 1 'M' 'y' "PM config: " "Python version: " s t
      (by decide) (by decide) (by decide)
  have n5 : ∀ t, "PM config: " ++ s ≠ "Python executable: " ++ t := fun t =>
    append_ne_append 1 'M' 'y' "PM config: " "Python executable: " s t
      (by decide) (by decide) (by decide)
  by_cases h2 : optTruthy (lookupEnv env "PM_CURRENT_PROJECT") <;>
  cases h3 : pyFirstWord sys.version <;>
  simp [run_command, get_pm_context, h, h2, h3, n1, n2, n3, n4, n5]

/-- When `PM_CONFIG_PATH` is falsy, no `  PM Config:` line appears in the
config output, for any payload. -/
lemma config_omits_config (env : Env) (sys : SysInfo)
    (h : optTruthy (lookupEnv env "PM_CONFIG_PATH") = false) :
    ∀ s, Line.plain ("  PM Config: " ++ s) ∉ (config_command env sys).1 := by
  intro s
  have n1 : "  PM Config: " ++ s ≠ "  Extension: test-python" :=
    append_ne_lit 2 'P' 'E' "  PM Config: " s "  Extension: test-python"
      (by decide) (by decide) (by decide)
  have n1a : ∀ t, "  PM Config: " ++ s ≠ "  Extension: " ++ t := fun t =>
    append_ne_append 2 'P' 'E' "  PM Config: " "  Extension: " s t
      (by decide) (by decide) (by decide)
  have n2 : "  PM Config: " ++ s ≠ "  Version: 1.0.0" :=
    append_ne_lit 2 'P' 'V' "  PM Config: " s "  Version: 1.0.0"
      (by decide) (by decide) (by decide)
  have n2a : ∀ t, "  PM Config: " ++ s ≠ "  Version: " ++ t := fun t =>
    append_ne_append 2 'P' 'V' "  PM Config: " "  Version: " s t
      (by decide) (by decide) (by decide)
  have n3 : ∀ t, "  PM Config: " ++ s ≠ "  Python: " ++ t := fun t =>
    append_ne_append 3 'M' 'y' "  PM Config: " "  Python: " s t
      (by decide) (by decide) (by decide)
  have n4 : ∀ t, "  PM Config: " ++ s ≠ "  Timestamp: " ++ t := fun t =>
    append_ne_append 2 'P' 'T' "  PM Config: " "  Timestamp: " s t
      (by decide) (by decide) (by decide)
  have n5 : ∀ t, "  PM Config: " ++ s ≠ "  PM Project: " ++ t := fun t =>
    append_ne_append 5 'C' 'P' "  PM Config: " "  PM Project: " s t
      (by decide) (by decide) (by decide)
  by_cases h2 : optTruthy (lookupEnv env "PM_CURRENT_PROJECT") <;>
  cases h3 : pyFirstWord sys.version <;>
  simp [config_command, get_pm_context, h, h2, h3, n1, n1a, n2, n2a, n3, n4, n5]

/-- When `PM_CURRENT_PROJECT` is falsy, check prints the warning line and
not the in-context success line. -/
lemma check_untruthy (env : Env) (sys : SysInfo)
    (h : optTruthy (lookupEnv env "PM_CURRENT_PROJECT") = false) :
    Line.warning "Not running in PM project context" ∈ (check_command env sys).1
    ∧ Line.success "Running in PM project context" ∉ (check_command env sys).1 := by
  have m1 : ("Running in PM project context" : String) ≠
      "test-python Extension - Check Command" := by decide
  have m2 : ("Running in PM project context" : String) ≠
      "Core Python modules available" := by decide
  constructor
  · simp [check_command, get_pm_context, h]
  · simp [check_command, get_pm_context, h, m1, m2]

/-- **C5**: with `PM_CURRENT_PROJECT` unset, deploy omits the
`Current PM project` line, config omits the `PM Project` line, and check
prints the warning line instead of the in-context success line. -/
theorem c5_unset_project_omits (env : Env) (sys : SysInfo)
    (h : lookupEnv env "PM_CURRENT_PROJECT" = none) :
    (∀ s, Line.info ("Current PM project: " ++ s) ∉ (run_command env sys).1)
    ∧ (∀ s, Line.plain ("  PM Project: " ++ s) ∉ (config_command env sys).1)
    ∧ Line.warning "Not running in PM project context" ∈ (check_command env sys).1
    ∧ Line.success "Running in PM project context" ∉ (check_command env sys).1 := by
  have ht : optTruthy (lookupEnv env "PM_CURRENT_PROJECT") = false := by rw [h]; rfl
  exact ⟨run_omits_project env sys ht, config_omits_project env sys ht,
    (check_untruthy env sys ht).1, (check_untruthy env sys ht).2⟩

theorem c5_witness :
    Line.warning "Not running in PM project context" ∈
      (check_command [("PM_CONFIG_PATH", "/etc/pm.toml")] sampleSys).1 :=
  (c5_unset_project_omits [("PM_CONFIG_PATH", "/etc/pm.toml")] sampleSys (by rfl)).2.2.1

/-- Collapse `some ""` to `none`: two optional values with the same
normalisation are indistinguishable to the program's truthiness guards. -/
def optNorm (o : Option String) : Option String :=
  if o = some "" then none else o

lemma optNorm_cases (o1 o2 : Option String) (h : optNorm o1 = optNorm o2) :
    (optTruthy o1 = false ∧ optTruthy o2 = false) ∨ o1 = o2 := by
  cases o1 with
  | none =>
    cases o2 with
    | none => exact Or.inr rfl
    | some b =>
      by_cases hb : b = ""
      · subst hb
        exact Or.inl ⟨rfl, rfl⟩
      · simp [optNorm, hb] at h
  | some a =>
    cases o2 with
    | none =>
      by_cases ha : a = ""
      · subst ha
        exact Or.inl ⟨rfl, rfl⟩
      · simp [optNorm, ha] at h
    | some b =>
      by_cases ha : a = "" <;> by_cases hb : b = ""
      · subst ha; subst hb
        exact Or.inr rfl
      · subst ha
        simp [optNorm, hb] at h
      · subst hb
        simp [optNorm, ha] at h
      · simp [optNorm, ha, hb] at h
        exact Or.inr (by rw [h])

lemma run_norm_eq (env1 env2 : Env) (sys : SysInfo)
    (hP : optNorm (lookupEnv env1 "PM_CURRENT_PROJECT") =
      optNorm (lookupEnv env2 "PM_CURRENT_PROJECT"))
    (hC : optNorm (lookupEnv env1 "PM_CONFIG_PATH") =
      optNorm (lookupEnv env2 "PM_CONFIG_PATH")) :
    run_command env1 sys = run_command env2 sys := by
  rcases optNorm_cases _ _ hP with ⟨hp1, hp2⟩ | hp <;>
  rcases optNorm_cases _ _ hC with ⟨hc1, hc2⟩ | hc <;>
  simp_all [run_command, get_pm_context]

lemma check_norm_eq (env1 env2 : Env) (sys : SysInfo)
    (hP : optNorm (lookupEnv env1 "PM_CURRENT_PROJECT") =
      optNorm (lookupEnv env2 "PM_CURRENT_PROJECT")) :
    check_command env1 sys = check_command env2 sys := by
  rcases optNorm_cases _ _ hP with ⟨hp1, hp2⟩ | hp <;>
  simp_all [check_command, get_pm_context]

lemma config_norm_eq (env1 env2 : Env) (sys : SysInfo)
    (hP : optNorm (lookupEnv env1 "PM_CURRENT_PROJECT") =
      optNorm (lookupEnv env2 "PM_CURRENT_PROJECT"))
    (hC : optNorm (lookupEnv env1 "PM_CONFIG_PATH") =
      optNorm (lookupEnv env2 "PM_CONFIG_PATH")) :
    config_command env1 sys = config_command env2 sys := by
  cases hfw : pyFirstWord sys.version <;>
  rcases optNorm_cases _ _ hP with ⟨hp1, hp2⟩ | hp <;>
  rcases optNorm_cases _ _ hC with ⟨hc1, hc2⟩ | hc <;>
  simp_all [config_command, get_pm_context]

/-- **C9**: an environment variable set to the empty string is
indistinguishable from an unset one — the whole program's behaviour only
depends on the truthiness-normalised values of `PM_CURRENT_PROJECT` and
`PM_CONFIG_PATH`; moreover with `PM_CURRENT_PROJECT = ""` check warns and
deploy/config omit their project lines, and with `PM_CONFIG_PATH = ""` the
config-path lines are omitted, exactly as when unset. -/
theorem c9_empty_equals_unset (argv : List String) (env1 env2 : Env) (sys : SysInfo)
    (hP : optNorm (lookupEnv env1 "PM_CURRENT_PROJECT") =
      optNorm (lookupEnv env2 "PM_CURRENT_PROJECT"))
    (hC : optNorm (lookupEnv env1 "PM_CONFIG_PATH") =
      optNorm (lookupEnv env2 "PM_CONFIG_PATH")) :
    Prog.main argv env1 sys = Prog.main argv env2 sys
    ∧ (lookupEnv env1 "PM_CURRENT_PROJECT" = some "" →
        Line.warning "Not running in PM project context" ∈ (check_command env1 sys).1
        ∧ (∀ s, Line.info ("Current PM project: " ++ s) ∉ (run_command env1 sys).1)
        ∧ (∀ s, Line.plain ("  PM Project: " ++ s) ∉ (config_command env1 sys).1))
    ∧ (lookupEnv env1 "PM_CONFIG_PATH" = some "" →
        (∀ s, Line.info ("PM config: " ++ s) ∉ (run_command env1 sys).1)
        ∧ (∀ s, Line.plain ("  PM Config: " ++ s) ∉ (config_command env1 sys).1)) := by
  refine ⟨?_, ?_, ?_⟩
  · rw [main_eq_dispatch, main_eq_dispatch]
    cases argv.get? 1 with
    | none => rfl
    | some c =>
      rw [run_norm_eq env1 env2 sys hP hC, check_norm_eq env1 env2 sys hP,
        config_norm_eq env1 env2 sys hP hC]
  · intro hP0
    have ht : optTruthy (lookupEnv env1 "PM_CURRENT_PROJECT") = false := by
      rw [hP0]
      rfl
    exact ⟨(check_untruthy env1 sys ht).1, run_omits_project env1 sys ht,
      config_omits_project env1 sys ht⟩
  · intro hC0
    have ht : optTruthy (lookupEnv env1 "PM_CONFIG_PATH") = false := by
      rw [hC0]
      rfl
    exact ⟨run_omits_config env1 sys ht, config_omits_config env1 sys ht⟩

theorem c9_witness :
    Prog.main ["pm", "deploy"] [("PM_CURRENT_PROJECT", ""), ("PM_CONFIG_PATH", "")] sampleSys =
      Prog.main ["pm", "deploy"] ([] : Env) sampleSys :=
  (c9_empty_equals_unset ["pm", "deploy"]
    [("PM_CURRENT_PROJECT", ""), ("PM_CONFIG_PATH", "")] [] sampleSys
    (by decide) (by decide)).1
